import Mathlib

set_option linter.unusedVariables false

/-!
Shallow embedding of the labelbox-python source excerpt, covering:
- `labelbox/data/annotation_types/geometry/polygon.py` (Polygon, its points
  validator, the `geometry` accessor and the `raster` method),
- `labelbox/schema/role.py` (`_get_roles` caching, `Roles.__init__` name
  normalisation and `Roles.__getitem__` lookup),
- `labelbox/schema/model_run.py` (`upsert_labels`, `upsert_data_rows`,
  `_wait_until_done`, `add_predictions`).

Python strings are modelled as `List Char` where per-character operations
(`str.upper`, `str.replace`) matter, and as Lean `String` where the code
treats them opaquely. Python exceptions are modelled as explicit error
constructors (`Except.error`, dedicated inductive constructors).
-/

/-- Modelled from the spec: the `Point` class
(`labelbox.data.annotation_types.geometry.point`) is not part of the source
excerpt; the spec describes it as an (x, y) numeric coordinate pair, and
pydantic models compare by componentwise field equality. -/
structure Point where
  x : Int
  y : Int
deriving DecidableEq, Repr

/-- A `Polygon` as in `polygon.py`: an ordered sequence of points. -/
structure Polygon where
  points : List Point
deriving DecidableEq, Repr

/-- The pydantic validator `Polygon.is_geom_valid`: raises a validation
error when fewer than 3 points are supplied, otherwise passes the points
through unchanged. -/
def is_geom_valid (points : List Point) : Except String (List Point) :=
  if points.length < 3 then
    Except.error "A polygon must have at least 3 points to be valid."
  else
    Except.ok points

/-- Constructing a `Polygon`: pydantic runs the `points` validator, and a
raised validation error aborts construction. -/
def mkPolygon (pts : List Point) : Except String Polygon :=
  (is_geom_valid pts).map (fun v => { points := v })

/-- The mutation performed by the `Polygon.geometry` accessor on
`self.points`: if `self.points[0] != self.points[-1]`, append
`self.points[0]`. On the empty list Python would raise an IndexError; the
accessor is only reachable on validated polygons (at least 3 points), and
all theorems below carry that hypothesis. -/
def closeRing : List Point → List Point
  | [] => []
  | p :: rest =>
    if p ≠ (p :: rest).getLast (List.cons_ne_nil p rest) then
      (p :: rest) ++ [p]
    else
      p :: rest

/-- The `Polygon.geometry` accessor: mutates the stored points by ring
closure, then returns the nested coordinate array built from the updated
`self.points`. The result pair is (polygon after mutation, returned
coordinates). -/
def Polygon.geometry (p : Polygon) : Polygon × List (List (List Int)) :=
  ({ points := closeRing p.points },
   [(closeRing p.points).map (fun q => [q.x, q.y])])

/-- The `Polygon.raster` method: allocates a height x width zero canvas and
then unconditionally raises NotImplementedError; the trailing return is
unreachable. -/
def Polygon.raster (p : Polygon) (height width : Nat) :
    Except String (List (List Nat)) :=
  let canvas := List.replicate height (List.replicate width 0)
  Except.error "NotImplementedError"

/-- Result of one call to the status function passed to
`ModelRun._wait_until_done`: a mapping with a `status` and an
`errorMessage` field, as selected by the status queries in
`upsert_labels` and `upsert_data_rows`. -/
structure StatusRes where
  status : String
  errorMessage : String
deriving DecidableEq, Repr

/-- Observable outcome of `ModelRun._wait_until_done`: normal return
(`True`), the raised generic `Exception` for a FAILED status, or the raised
`TimeoutError` for an exhausted budget. The three constructors are
pairwise distinct, matching the distinct Python exception kinds. -/
inductive PollOutcome where
  | completed : PollOutcome
  | importFailed (msg : String) : PollOutcome
  | timedOut (msg : String) : PollOutcome
deriving DecidableEq, Repr

/-- The bounded polling loop `ModelRun._wait_until_done`. `statusFn i` is
the result of the (i+1)-th call to `status_fn`. Each iteration checks for
COMPLETE, then FAILED, then decrements the remaining budget by
`sleep_time` and raises `TimeoutError` once it is ≤ 0. The Python loop
diverges when `sleep_time ≤ 0` and no terminal status ever arrives, so the
model carries the positivity of `sleep_time` (its only value in the source
is the default 5) as the termination argument `hs`. -/
def waitUntilDone (statusFn : Nat → StatusRes) (sleepTime : Int)
    (hs : 0 < sleepTime) (timeoutSeconds : Int) (i : Nat) : PollOutcome :=
  if (statusFn i).status = "COMPLETE" then
    PollOutcome.completed
  else if (statusFn i).status = "FAILED" then
    PollOutcome.importFailed
      ("MEA Import Failed. Details : " ++ (statusFn i).errorMessage)
  else if h : timeoutSeconds - sleepTime ≤ 0 then
    PollOutcome.timedOut
      ("Unable to complete import within " ++
        toString (timeoutSeconds - sleepTime) ++ " seconds.")
  else
    waitUntilDone statusFn sleepTime hs (timeoutSeconds - sleepTime) (i + 1)
termination_by timeoutSeconds.toNat
decreasing_by omega

/-- Python `str.upper` on a character sequence (ASCII, as in the role names
at issue): `Char.toUpper` maps a-z to A-Z and leaves everything else. -/
def pyUpper (s : List Char) : List Char :=
  s.map Char.toUpper

/-- Python `str.replace(' ', '_')` on a character sequence: the pattern is
a single character, so the replacement is a character map. -/
def spaceToUnderscore (s : List Char) : List Char :=
  s.map (fun c => if c = ' ' then '_' else c)

/-- The normalisation `Roles.__init__` applies to each fetched role name
before storing it: `result['name'].upper().replace(' ', '_')`. The
normalised name is both the attribute key of the Role entry and the member
recorded in `valid_roles`. -/
def roleStoredName (orig : List Char) : List Char :=
  spaceToUnderscore (pyUpper orig)

/-- The normalisation `Roles.__getitem__` applies to its argument:
`name.replace(' ', '_').upper()`. -/
def roleLookupKey (q : List Char) : List Char :=
  pyUpper (spaceToUnderscore q)

/-- The lookup `Roles.__getitem__`: normalise the query, raise ValueError
when the normalised name is not in `valid_roles`, otherwise return the
attribute stored under the normalised name. The returned key identifies
the Role entry (`getattr(self, name)` is keyed by it). -/
def rolesGetItem (validRoles : List (List Char)) (name : List Char) :
    Except String (List Char) :=
  if roleLookupKey name ∈ validRoles then
    Except.ok (roleLookupKey name)
  else
    Except.error "No role with that normalised name exists."

/-- A query differs from a stored name only by letter case and by spaces
standing in place of underscores: characterwise, either the query
character uppercases to the stored character, or the query has a space
where the stored name has an underscore. -/
def charCaseSpaceVariant (c d : Char) : Bool :=
  (c.toUpper = d : Bool) || ((c = ' ' : Bool) && (d = '_' : Bool))

/-- Sequence-level version of `charCaseSpaceVariant`: same length and the
relation holds at every position. -/
def caseSpaceVariant (q s : List Char) : Bool :=
  (q.length = s.length : Bool) &&
    (q.zip s).all (fun pr => charCaseSpaceVariant pr.1 pr.2)

/-- One call of `_get_roles` in `role.py`, acting on the process-wide
cache stored as an attribute on the function object. State is
(cached result if any, number of `client.execute` calls made so far);
`fetch n` is the value the (n+1)-th remote execution would return. A call
returns the cached result when present, otherwise executes the query,
stores the result and returns it. -/
def getRolesCall {R : Type} (fetch : Nat → R) :
    Option R × Nat → R × (Option R × Nat)
  | (some r, n) => (r, (some r, n))
  | (none, n) => (fetch n, (some (fetch n), n + 1))

/-- A sequence of `n` consecutive `_get_roles` calls in one process,
starting from the empty cache: returns the final cache state together with
the list of values returned to the callers, in order. -/
def runGetRolesCalls {R : Type} (fetch : Nat → R) :
    Nat → (Option R × Nat) × List R
  | 0 => ((none, 0), [])
  | n + 1 =>
    let prev := runGetRolesCalls fetch n
    let step := getRolesCall fetch prev.1
    (step.2, prev.2 ++ [step.1])

/-- The runtime type of the `predictions` argument of
`ModelRun.add_predictions`, as the `isinstance` chain distinguishes it: a
`str`, a `pathlib.Path`, some other `Iterable` (of record mappings), or
any other value, tagged with its type name for the error message. -/
inductive PredArg where
  | strArg (s : String)
  | pathArg (s : String)
  | iterArg (recs : List (List (String × String)))
  | otherArg (typeName : String)
deriving DecidableEq, Repr

/-- The action `ModelRun.add_predictions` takes: one of the three
`MEAPredictionImport` constructors, or the raised ValueError. -/
inductive ImportAction where
  | createFromFile (path : String)
  | createFromUrl (url : String)
  | createFromObjects (recs : List (List (String × String)))
  | raisedValueError (msg : String)
deriving DecidableEq, Repr

/-- `ModelRun.add_predictions`: a `str` or `Path` goes to a file import
when `os.path.exists` holds of it and to a URL import otherwise; any other
`Iterable` goes to an object import; anything else raises ValueError naming
the offending type. `pathExists` stands for `os.path.exists`. -/
def addPredictions (pathExists : String → Bool) : PredArg → ImportAction
  | PredArg.strArg s =>
    if pathExists s then ImportAction.createFromFile s
    else ImportAction.createFromUrl s
  | PredArg.pathArg s =>
    if pathExists s then ImportAction.createFromFile s
    else ImportAction.createFromUrl s
  | PredArg.iterArg recs => ImportAction.createFromObjects recs
  | PredArg.otherArg tn =>
    ImportAction.raisedValueError ("Invalid predictions given of type: " ++ tn)

/-- The first externally visible action of `upsert_labels` or
`upsert_data_rows`: either the ValueError raised by the length guard
(before any remote interaction), or the first `client.execute` call, which
creates the registration task. -/
inductive UpsertFirstAction where
  | raisedValueError (msg : String)
  | executedMutation (mutationName : String) (ids : List String)
deriving DecidableEq, Repr

/-- `ModelRun.upsert_labels` up to its first externally visible action:
the guard `len(label_ids) < 1` raises ValueError; otherwise the first
action is `client.execute` of the task-creation mutation. -/
def upsertLabelsFirstAction (labelIds : List String) : UpsertFirstAction :=
  if labelIds.length < 1 then
    UpsertFirstAction.raisedValueError "Must provide at least one label id"
  else
    UpsertFirstAction.executedMutation
      "createMEAModelRunLabelRegistrationTask" labelIds

/-- `ModelRun.upsert_data_rows` up to its first externally visible action:
the guard `len(data_row_ids) < 1` raises ValueError; otherwise the first
action is `client.execute` of the task-creation mutation. -/
def upsertDataRowsFirstAction (dataRowIds : List String) : UpsertFirstAction :=
  if dataRowIds.length < 1 then
    UpsertFirstAction.raisedValueError "Must provide at least one data row id"
  else
    UpsertFirstAction.executedMutation
      "createMEAModelRunDataRowRegistrationTask" dataRowIds

/-! Helper lemmas about ring closure. -/

/-- Characterisation of `closeRing` on a nonempty list through `getLast?`:
the first point is appended exactly when the last point differs from it. -/
theorem closeRing_eq_ite (p : Point) (rest : List Point) :
    closeRing (p :: rest) =
      if (p :: rest).getLast? = some p then p :: rest
      else (p :: rest) ++ [p] := by
  simp only [closeRing,
    List.getLast?_eq_getLast_of_ne_nil (List.cons_ne_nil p rest),
    Option.some_inj]
  by_cases h : p = (p :: rest).getLast (List.cons_ne_nil p rest)
  · rw [if_neg (not_not_intro h), if_pos h.symm]
  · rw [if_pos h, if_neg (fun hc => h hc.symm)]

/-- After ring closure the head is the original head. -/
theorem closeRing_head? (p : Point) (rest : List Point) :
    (closeRing (p :: rest)).head? = some p := by
  rw [closeRing_eq_ite]
  split
  · rfl
  · rfl

/-- After ring closure the last point equals the original head. -/
theorem closeRing_getLast? (p : Point) (rest : List Point) :
    (closeRing (p :: rest)).getLast? = some p := by
  rw [closeRing_eq_ite]
  split
  · next h => exact h
  · exact List.getLast?_concat _

/-- Ring closure is idempotent on nonempty lists. -/
theorem closeRing_idem (p : Point) (rest : List Point) :
    closeRing (closeRing (p :: rest)) = closeRing (p :: rest) := by
  rw [closeRing_eq_ite p rest]
  by_cases h : (p :: rest).getLast? = some p
  · rw [if_pos h, closeRing_eq_ite p rest, if_pos h]
  · rw [if_neg h]
    have hc : (p :: rest) ++ [p] = p :: (rest ++ [p]) := rfl
    rw [hc, closeRing_eq_ite p (rest ++ [p]), if_pos]
    rw [← hc]
    exact List.getLast?_concat _

/-- Ring closure grows the list by at most one element. -/
theorem closeRing_length_le (p : Point) (rest : List Point) :
    (closeRing (p :: rest)).length ≤ (p :: rest).length + 1 := by
  rw [closeRing_eq_ite]
  split
  · simp
  · simp

/-- C1: for every Polygon constructed from at least 3 points, after the
`geometry` accessor the stored sequence ends with a point equal to its
first point; if the last point differed from the first, the stored
sequence is the original with the first point appended, otherwise it is
unchanged; and the returned value is the nested coordinate array of the
closed sequence. -/
theorem polygon_geometry_closes_ring (pts : List Point) (h : 3 ≤ pts.length) :
    ((Polygon.geometry { points := pts }).1.points.getLast? = pts.head?) ∧
    ((Polygon.geometry { points := pts }).1.points.head? = pts.head?) ∧
    (pts.getLast? ≠ pts.head? →
      (Polygon.geometry { points := pts }).1.points = pts ++ pts.take 1) ∧
    (pts.getLast? = pts.head? →
      (Polygon.geometry { points := pts }).1.points = pts) ∧
    ((Polygon.geometry { points := pts }).2 =
      [((Polygon.geometry { points := pts }).1.points).map
        (fun q => [q.x, q.y])]) := by
  match pts, h with
  | p :: rest, _ =>
    simp only [Polygon.geometry, List.head?_cons]
    refine ⟨closeRing_getLast? p rest, closeRing_head? p rest, ?_, ?_, by trivial⟩
    · intro hne
      rw [closeRing_eq_ite, if_neg hne]
      simp
    · intro heq
      rw [closeRing_eq_ite, if_pos heq]

/-- Witness for C1 at the concrete polygon [(0,0), (4,0), (4,3)]. -/
theorem polygon_geometry_closes_ring_witness :
    3 ≤ ([⟨0, 0⟩, ⟨4, 0⟩, ⟨4, 3⟩] : List Point).length ∧
    (Polygon.geometry
        { points := [⟨0, 0⟩, ⟨4, 0⟩, ⟨4, 3⟩] }).1.points.getLast? =
      ([⟨0, 0⟩, ⟨4, 0⟩, ⟨4, 3⟩] : List Point).head? :=
  ⟨by decide,
   (polygon_geometry_closes_ring [⟨0, 0⟩, ⟨4, 0⟩, ⟨4, 3⟩] (by decide)).1⟩

/-- C9: ring closure through `geometry` is idempotent — after one call,
a further call leaves the stored points unchanged and returns the same
value, and the stored sequence grows by at most one element in total. -/
theorem polygon_geometry_idempotent (pts : List Point) (h : 3 ≤ pts.length) :
    ((Polygon.geometry ((Polygon.geometry { points := pts }).1)).1 =
      (Polygon.geometry { points := pts }).1) ∧
    ((Polygon.geometry ((Polygon.geometry { points := pts }).1)).2 =
      (Polygon.geometry { points := pts }).2) ∧
    ((Polygon.geometry { points := pts }).1.points.length ≤ pts.length + 1) := by
  match pts, h with
  | p :: rest, _ =>
    simp only [Polygon.geometry]
    refine ⟨?_, ?_, closeRing_length_le p rest⟩
    · rw [closeRing_idem]
    · rw [closeRing_idem]

/-- Witness for C9 at the concrete polygon [(0,0), (4,0), (4,3)]. -/
theorem polygon_geometry_idempotent_witness :
    3 ≤ ([⟨0, 0⟩, ⟨4, 0⟩, ⟨4, 3⟩] : List Point).length ∧
    (Polygon.geometry
        ((Polygon.geometry { points := [⟨0, 0⟩, ⟨4, 0⟩, ⟨4, 3⟩] }).1)).1 =
      (Polygon.geometry { points := [⟨0, 0⟩, ⟨4, 0⟩, ⟨4, 3⟩] }).1 :=
  ⟨by decide,
   (polygon_geometry_idempotent [⟨0, 0⟩, ⟨4, 0⟩, ⟨4, 3⟩] (by decide)).1⟩

/-- C2: constructing a Polygon from fewer than 3 points always fails with
the validation error, and never succeeds. -/
theorem polygon_too_few_points_fails (pts : List Point) (h : pts.length < 3) :
    (mkPolygon pts =
      Except.error "A polygon must have at least 3 points to be valid.") ∧
    (∀ poly : Polygon, mkPolygon pts ≠ Except.ok poly) := by
  constructor
  · simp [mkPolygon, is_geom_valid, h, Except.map]
  · intro poly hc
    simp [mkPolygon, is_geom_valid, h, Except.map] at hc

/-- Witness for C2 at the two-point sequence [(0,0), (1,1)]. -/
theorem polygon_too_few_points_fails_witness :
    ([⟨0, 0⟩, ⟨1, 1⟩] : List Point).length < 3 ∧
    mkPolygon [⟨0, 0⟩, ⟨1, 1⟩] =
      Except.error "A polygon must have at least 3 points to be valid." :=
  ⟨by decide, (polygon_too_few_points_fails [⟨0, 0⟩, ⟨1, 1⟩] (by decide)).1⟩

/-- C3 counterexample: a sequence of three equal points has a single
distinct point, yet Polygon construction succeeds on it — the validator
checks only the length of the sequence, not distinctness. -/
theorem polygon_distinctness_counterexample :
    (mkPolygon [⟨0, 0⟩, ⟨0, 0⟩, ⟨0, 0⟩] =
      Except.ok { points := [⟨0, 0⟩, ⟨0, 0⟩, ⟨0, 0⟩] }) ∧
    ([⟨0, 0⟩, ⟨0, 0⟩, ⟨0, 0⟩] : List Point).dedup.length = 1 := by
  constructor
  · rfl
  · decide

/-- C3 amended: construction succeeds exactly when the input sequence has
at least 3 points (not necessarily distinct), and a successfully
constructed Polygon stores exactly the input sequence. -/
theorem polygon_construction_iff_three_points (pts : List Point) :
    ((mkPolygon pts = Except.ok { points := pts }) ↔ 3 ≤ pts.length) ∧
    ((∃ poly, mkPolygon pts = Except.ok poly) ↔ 3 ≤ pts.length) := by
  simp only [mkPolygon, is_geom_valid]
  by_cases h : pts.length < 3
  · rw [if_pos h]
    simp [Except.map]
    omega
  · rw [if_neg h]
    simp [Except.map]
    omega

/-- C8: `Polygon.raster` raises NotImplementedError for every height and
width, and never returns a canvas. -/
theorem polygon_raster_unimplemented (p : Polygon) (height width : Nat) :
    (Polygon.raster p height width = Except.error "NotImplementedError") ∧
    (∀ canvas, Polygon.raster p height width ≠ Except.ok canvas) := by
  refine ⟨rfl, ?_⟩
  intro canvas hc
  simp [Polygon.raster] at hc

/-- C10: `upsert_labels` and `upsert_data_rows` on an empty id list raise
ValueError as their first action — in particular no `client.execute` call
is made and no task-creation mutation runs. -/
theorem upsert_empty_ids_raise_before_execute :
    (upsertLabelsFirstAction [] =
      UpsertFirstAction.raisedValueError "Must provide at least one label id") ∧
    (upsertDataRowsFirstAction [] =
      UpsertFirstAction.raisedValueError
        "Must provide at least one data row id") ∧
    (∀ mname ids, upsertLabelsFirstAction [] ≠
      UpsertFirstAction.executedMutation mname ids) ∧
    (∀ mname ids, upsertDataRowsFirstAction [] ≠
      UpsertFirstAction.executedMutation mname ids) := by
  refine ⟨rfl, rfl, ?_, ?_⟩ <;> intro mname ids hc <;>
    simp [upsertLabelsFirstAction, upsertDataRowsFirstAction] at hc

/-- C7: `add_predictions` raises ValueError naming the offending type
exactly on a non-str, non-Path, non-Iterable argument; a str or Path goes
to a file import when the path exists and to a URL import otherwise; any
other Iterable goes to an object import. -/
theorem add_predictions_dispatch (pathExists : String → Bool) :
    (∀ a : PredArg,
      (∃ m, addPredictions pathExists a = ImportAction.raisedValueError m) ↔
        (∃ tn, a = PredArg.otherArg tn)) ∧
    (∀ s, addPredictions pathExists (PredArg.strArg s) =
      if pathExists s then ImportAction.createFromFile s
      else ImportAction.createFromUrl s) ∧
    (∀ s, addPredictions pathExists (PredArg.pathArg s) =
      if pathExists s then ImportAction.createFromFile s
      else ImportAction.createFromUrl s) ∧
    (∀ recs, addPredictions pathExists (PredArg.iterArg recs) =
      ImportAction.createFromObjects recs) ∧
    (∀ tn, addPredictions pathExists (PredArg.otherArg tn) =
      ImportAction.raisedValueError
        ("Invalid predictions given of type: " ++ tn)) := by
  refine ⟨?_, fun s => rfl, fun s => rfl, fun recs => rfl, fun tn => rfl⟩
  intro a
  cases a with
  | strArg s =>
    simp only [addPredictions]
    constructor
    · rintro ⟨m, hm⟩
      split at hm <;> exact absurd hm (by simp)
    · rintro ⟨tn, htn⟩
      exact absurd htn (by simp)
  | pathArg s =>
    simp only [addPredictions]
    constructor
    · rintro ⟨m, hm⟩
      split at hm <;> exact absurd hm (by simp)
    · rintro ⟨tn, htn⟩
      exact absurd htn (by simp)
  | iterArg recs =>
    simp [addPredictions]
  | otherArg tn =>
    simp [addPredictions]

/-- Stored role names contain no space: `Roles.__init__` replaces every
space with an underscore. -/
theorem roleStoredName_no_space (orig : List Char) :
    ' ' ∉ roleStoredName orig := by
  intro hmem
  simp only [roleStoredName, spaceToUnderscore, pyUpper, List.map_map,
    List.mem_map, Function.comp] at hmem
  obtain ⟨a, _, ha⟩ := hmem
  by_cases h : Char.toUpper a = ' '
  · rw [if_pos h] at ha
    exact absurd ha (by decide)
  · rw [if_neg h] at ha
    exact h ha

/-- A query that is a case/space variant of a space-free target normalises
to the target under the `Roles.__getitem__` normalisation. -/
theorem roleLookupKey_of_variant :
    ∀ (q s : List Char), ' ' ∉ s → caseSpaceVariant q s = true →
      roleLookupKey q = s := by
  intro q
  induction q with
  | nil =>
    intro s hs hv
    cases s with
    | nil => rfl
    | cons d t => simp [caseSpaceVariant] at hv
  | cons c q ih =>
    intro s hs hv
    cases s with
    | nil => simp [caseSpaceVariant] at hv
    | cons d t =>
      simp only [caseSpaceVariant, List.length_cons, List.zip_cons_cons,
        List.all_cons, Bool.and_eq_true, decide_eq_true_eq,
        Nat.succ_inj] at hv
      obtain ⟨hlen, hcd, htail⟩ := hv
      have hd : d ≠ ' ' := fun hc => hs (hc ▸ List.mem_cons_self d t)
      have htl : ' ' ∉ t := fun hc => hs (List.mem_cons_of_mem d hc)
      simp only [charCaseSpaceVariant, Bool.or_eq_true, Bool.and_eq_true,
        decide_eq_true_eq] at hcd
      have hhead : Char.toUpper (if c = ' ' then '_' else c) = d := by
        rcases hcd with hup | ⟨hc, hdu⟩
        · have hcne : c ≠ ' ' := by
            intro hc
            apply hd
            rw [← hup, hc]
            decide
          rw [if_neg hcne, hup]
        · rw [if_pos hc, hdu]
          decide
      have htail2 : roleLookupKey q = t := by
        apply ih t htl
        simp only [caseSpaceVariant, Bool.and_eq_true, decide_eq_true_eq]
        exact ⟨hlen, htail⟩
      simp only [roleLookupKey, spaceToUnderscore, pyUpper,
        List.map_cons] at htail2 ⊢
      rw [hhead, htail2]

/-- C5: role lookup is case- and space/underscore-insensitive — for a role
whose stored (normalised) name is in `valid_roles`, any query differing
from that stored name only by letter case and by spaces in place of
underscores resolves to the entry keyed by the stored name. -/
theorem role_lookup_case_space_insensitive (orig q : List Char)
    (validRoles : List (List Char))
    (hmem : roleStoredName orig ∈ validRoles)
    (hvar : caseSpaceVariant q (roleStoredName orig) = true) :
    rolesGetItem validRoles q = Except.ok (roleStoredName orig) := by
  have hkey : roleLookupKey q = roleStoredName orig :=
    roleLookupKey_of_variant q _ (roleStoredName_no_space orig) hvar
  simp [rolesGetItem, hkey, hmem]

/-- Witness for C5: with the fetched role name "Project Lead" (stored as
PROJECT_LEAD), both the query "project lead" and the query "PROJECT_LEAD"
resolve to the stored entry. -/
theorem role_lookup_case_space_insensitive_witness :
    (rolesGetItem
        [roleStoredName
          ['P', 'r', 'o', 'j', 'e', 'c', 't', ' ', 'L', 'e', 'a', 'd']]
        ['p', 'r', 'o', 'j', 'e', 'c', 't', ' ', 'l', 'e', 'a', 'd'] =
      Except.ok
        (roleStoredName
          ['P', 'r', 'o', 'j', 'e', 'c', 't', ' ', 'L', 'e', 'a', 'd'])) ∧
    (rolesGetItem
        [roleStoredName
          ['P', 'r', 'o', 'j', 'e', 'c', 't', ' ', 'L', 'e', 'a', 'd']]
        ['P', 'R', 'O', 'J', 'E', 'C', 'T', '_', 'L', 'E', 'A', 'D'] =
      Except.ok
        (roleStoredName
          ['P', 'r', 'o', 'j', 'e', 'c', 't', ' ', 'L', 'e', 'a', 'd'])) :=
  ⟨role_lookup_case_space_insensitive
      ['P', 'r', 'o', 'j', 'e', 'c', 't', ' ', 'L', 'e', 'a', 'd']
      ['p', 'r', 'o', 'j', 'e', 'c', 't', ' ', 'l', 'e', 'a', 'd'] _
      (List.mem_singleton_self _) (by decide),
   role_lookup_case_space_insensitive
      ['P', 'r', 'o', 'j', 'e', 'c', 't', ' ', 'L', 'e', 'a', 'd']
      ['P', 'R', 'O', 'J', 'E', 'C', 'T', '_', 'L', 'E', 'A', 'D'] _
      (List.mem_singleton_self _) (by decide)⟩

/-- Closed form of a run of `n ≥ 1` consecutive `_get_roles` calls: the
cache holds the first fetched value, exactly one remote execution
happened, and every caller received the first fetched value. -/
theorem runGetRolesCalls_eq {R : Type} (fetch : Nat → R) (n : Nat)
    (h : 1 ≤ n) :
    runGetRolesCalls fetch n =
      ((some (fetch 0), 1), List.replicate n (fetch 0)) := by
  induction n with
  | zero => omega
  | succ k ih =>
    by_cases hk : 1 ≤ k
    · simp only [runGetRolesCalls, ih hk, getRolesCall]
      rw [List.replicate_succ']
    · have hk0 : k = 0 := by omega
      subst hk0
      rfl

/-- C6: in any sequence of `n ≥ 1` calls to `_get_roles` in one process,
only the first call performs the remote execution (the final execute count
is 1), every call returns the first fetch's result, the cache retains that
result with no invalidation, and before the first call nothing has been
fetched (laziness). -/
theorem get_roles_fetches_once {R : Type} (fetch : Nat → R) (n : Nat)
    (h : 1 ≤ n) :
    ((runGetRolesCalls fetch n).1.2 = 1) ∧
    ((runGetRolesCalls fetch n).2 = List.replicate n (fetch 0)) ∧
    ((runGetRolesCalls fetch n).1.1 = some (fetch 0)) ∧
    ((runGetRolesCalls fetch 0).1.2 = 0) := by
  rw [runGetRolesCalls_eq fetch n h]
  exact ⟨rfl, rfl, rfl, rfl⟩

/-- Witness for C6 at three calls with pairwise different would-be fetch
results: every call returns the first result and one execution happened. -/
theorem get_roles_fetches_once_witness :
    1 ≤ 3 ∧ (runGetRolesCalls (fun k => k + 100) 3).1.2 = 1 :=
  ⟨by decide, (get_roles_fetches_once (fun k => k + 100) 3 (by decide)).1⟩

/-- When the status function never returns a terminal status, the polling
loop ends in `TimeoutError` with a non-positive residual budget, for any
starting budget and call index. -/
theorem waitUntilDone_nonterminal (statusFn : Nat → StatusRes)
    (sleepTime : Int) (hs : 0 < sleepTime)
    (hnt : ∀ j, (statusFn j).status ≠ "COMPLETE" ∧
      (statusFn j).status ≠ "FAILED") :
    ∀ (n : Nat) (timeoutSeconds : Int), timeoutSeconds.toNat ≤ n → ∀ i,
      ∃ t : Int, t ≤ 0 ∧
        waitUntilDone statusFn sleepTime hs timeoutSeconds i =
          PollOutcome.timedOut
            ("Unable to complete import within " ++ toString t ++
              " seconds.") := by
  intro n
  induction n with
  | zero =>
    intro ts hts i
    refine ⟨ts - sleepTime, by omega, ?_⟩
    rw [waitUntilDone, if_neg (hnt i).1, if_neg (hnt i).2,
      dif_pos (by omega : ts - sleepTime ≤ 0)]
  | succ k ih =>
    intro ts hts i
    by_cases hle : ts - sleepTime ≤ 0
    · refine ⟨ts - sleepTime, hle, ?_⟩
      rw [waitUntilDone, if_neg (hnt i).1, if_neg (hnt i).2, dif_pos hle]
    · obtain ⟨t, ht, heq⟩ := ih (ts - sleepTime) (by omega) (i + 1)
      refine ⟨t, ht, ?_⟩
      rw [waitUntilDone, if_neg (hnt i).1, if_neg (hnt i).2, dif_neg hle]
      exact heq

/-- C4: the polling loop `_wait_until_done` (a) on FAILED at the first
call raises the failure exception carrying the status result's
errorMessage, (b) when the status function never returns COMPLETE or
FAILED raises TimeoutError once the budget, decremented by `sleep_time`
per iteration, reaches ≤ 0, (c) on COMPLETE returns normally, and (d) the
timeout outcome is a distinct error kind from the failure outcome. -/
theorem wait_until_done_outcomes (statusFn : Nat → StatusRes)
    (sleepTime : Int) (hs : 0 < sleepTime) (timeoutSeconds : Int) :
    ((statusFn 0).status = "FAILED" →
      waitUntilDone statusFn sleepTime hs timeoutSeconds 0 =
        PollOutcome.importFailed
          ("MEA Import Failed. Details : " ++ (statusFn 0).errorMessage)) ∧
    ((∀ j, (statusFn j).status ≠ "COMPLETE" ∧
        (statusFn j).status ≠ "FAILED") →
      ∃ t : Int, t ≤ 0 ∧
        waitUntilDone statusFn sleepTime hs timeoutSeconds 0 =
          PollOutcome.timedOut
            ("Unable to complete import within " ++ toString t ++
              " seconds.")) ∧
    ((statusFn 0).status = "COMPLETE" →
      waitUntilDone statusFn sleepTime hs timeoutSeconds 0 =
        PollOutcome.completed) ∧
    (∀ e m, PollOutcome.timedOut e ≠ PollOutcome.importFailed m) := by
  refine ⟨?_, ?_, ?_, ?_⟩
  · intro hF
    rw [waitUntilDone, if_neg (by rw [hF]; decide), if_pos hF]
  · intro hnt
    exact waitUntilDone_nonterminal statusFn sleepTime hs hnt
      timeoutSeconds.toNat timeoutSeconds (Nat.le_refl _) 0
  · intro hC
    rw [waitUntilDone, if_pos hC]
  · intro e m hc
    exact PollOutcome.noConfusion hc

/-- Witness for C4: a status function that is FAILED on the first call
makes the loop raise the failure exception with the given error message. -/
theorem wait_until_done_outcomes_witness :
    waitUntilDone (fun _ => { status := "FAILED", errorMessage := "boom" })
        5 (by decide) 60 0 =
      PollOutcome.importFailed ("MEA Import Failed. Details : " ++ "boom") :=
  (wait_until_done_outcomes
      (fun _ => { status := "FAILED", errorMessage := "boom" })
      5 (by decide) 60).1 rfl
